import Mathlib

/-!
# Verification of the Looker provider's reconciliation core

Shallow embedding of the access-control reconciliation logic of the
`terraform-provider-looker` repository:

* `internal/provider/resource_folder_access.go` — plain grant management
  (`folderAccessResource`);
* the folder-permission-override resource (`folderPermissionOverrideResource`)
  — the override workflow that converts an existing (inherited) grant in
  place;
* `internal/provider/resource_group.go` — groups, email→ID identity
  resolution and membership diffing.

The remote Looker API is modelled as an explicit state (`Remote`) holding a
single access-control context's grant list, the user directory and the group
directory, together with a `broken` set of call kinds that fail with a
remote error (used to study error propagation).  Every resource-level
operation returns its outcome, the new remote state and the list of API
calls it issued, so frame conditions ("no mutating call is issued") are
provable by inspecting the call log.
-/

/-- An access grant (`v4.ContentMetaGroupUser`): grant ID, optional group ID
(the principal; `nil` in Go for user-directed grants) and optional
permission level (`PermissionType`, one of `"view"`/`"edit"`). -/
structure Grant where
  id : String
  groupId : Option String
  level : Option String
  deriving DecidableEq

/-- A remote user, as returned by `SearchUsers` (only the fields the code
reads: ID and email). -/
structure User where
  id : String
  email : String
  deriving DecidableEq

/-- A remote group (only the fields the code reads: ID, name and the member
IDs returned by `AllGroupUsers`). -/
structure GroupObj where
  id : String
  name : String
  memberIds : List String
  deriving DecidableEq

/-- The kinds of remote SDK calls the embedded operations issue. -/
inductive CallKind where
  | listGrants      -- AllContentMetadataAccesses
  | createGrant     -- CreateContentMetadataAccess
  | updateGrant     -- UpdateContentMetadataAccess
  | deleteGrant     -- DeleteContentMetadataAccess
  | searchUsers     -- SearchUsers
  | getGroup        -- Group
  | listGroupUsers  -- AllGroupUsers
  | addGroupUser    -- AddGroupUser
  | removeGroupUser -- DeleteGroupUser
  deriving DecidableEq

/-- A logged remote call with its arguments. -/
inductive ApiCall where
  | listGrants (folderId : String)
  | createGrant (folderId groupId level : String)
  | updateGrant (grantId level : String)
  | deleteGrant (grantId : String)
  | searchUsers (email : String)
  | getGroup (groupId : String)
  | listGroupUsers (groupId : String)
  | addGroupUser (groupId userId : String)
  | removeGroupUser (groupId userId : String)
  deriving DecidableEq

/-- Whether a call mutates remote state (list/search/get calls are pure
reads). -/
def ApiCall.mutating : ApiCall → Bool
  | .listGrants _ => false
  | .searchUsers _ => false
  | .getGroup _ => false
  | .listGroupUsers _ => false
  | _ => true

/-- Whether a call is a grant creation (`CreateContentMetadataAccess`). -/
def ApiCall.isCreateGrant : ApiCall → Bool
  | .createGrant _ _ _ => true
  | _ => false

/-- Number of mutating calls in a call log. -/
def mutatingCount (l : List ApiCall) : Nat :=
  (l.filter ApiCall.mutating).length

/-- Number of grant-creation calls in a call log. -/
def createGrantCount (l : List ApiCall) : Nat :=
  (l.filter ApiCall.isCreateGrant).length

/-- Error outcome of a single remote call: a transport/API-level failure, or
a distinguishable not-found condition. -/
inductive ApiErr where
  | remoteError
  | notFoundErr
  deriving DecidableEq

/-- The remote service's state: the grant list of the one access-control
context under scrutiny, the user and group directories, a counter for
minting fresh grant IDs, and the set of call kinds currently failing with a
remote error. -/
structure Remote where
  grants : List Grant
  nextGrantId : Nat
  users : List User
  groups : List GroupObj
  broken : List CallKind
  deriving DecidableEq

/-- Whether a call kind currently fails with a remote error. -/
def brokenCall (r : Remote) (k : CallKind) : Bool :=
  r.broken.contains k

/-- `AllContentMetadataAccesses`: returns the full, unfiltered grant list of
the context (the remote API has no server-side filter by principal). -/
def listGrantsApi (r : Remote) (folderId : String) :
    Except ApiErr (List Grant) × List ApiCall :=
  (if brokenCall r .listGrants then .error .remoteError else .ok r.grants,
   [.listGrants folderId])

/-- The grant freshly minted by a successful `CreateContentMetadataAccess`. -/
def mintGrant (r : Remote) (groupId level : String) : Grant :=
  { id := "grant-" ++ toString r.nextGrantId
    groupId := some groupId
    level := some level }

/-- `CreateContentMetadataAccess`: mints a new grant in the context. -/
def createGrantApi (r : Remote) (folderId groupId level : String) :
    Except ApiErr Grant × Remote × List ApiCall :=
  if brokenCall r .createGrant then
    (.error .remoteError, r, [.createGrant folderId groupId level])
  else
    (.ok (mintGrant r groupId level),
     { r with grants := r.grants ++ [mintGrant r groupId level]
              nextGrantId := r.nextGrantId + 1 },
     [.createGrant folderId groupId level])

/-- `UpdateContentMetadataAccess`: updates the level of the grant with the
given ID in place (the grant ID is stable across the level change) and
returns the updated grant; fails with not-found when no grant has that
ID. -/
def updateGrantApi (r : Remote) (grantId level : String) :
    Except ApiErr Grant × Remote × List ApiCall :=
  if brokenCall r .updateGrant then
    (.error .remoteError, r, [.updateGrant grantId level])
  else
    match r.grants.find? (fun g => g.id == grantId) with
    | none => (.error .notFoundErr, r, [.updateGrant grantId level])
    | some g =>
      let newGrants :=
        r.grants.map (fun h => if h.id == grantId then { h with level := some level } else h)
      (.ok { g with level := some level },
       { r with grants := newGrants },
       [.updateGrant grantId level])

/-- `DeleteContentMetadataAccess`: removes the grant with the given ID. -/
def deleteGrantApi (r : Remote) (grantId : String) :
    Except ApiErr Unit × Remote × List ApiCall :=
  if brokenCall r .deleteGrant then
    (.error .remoteError, r, [.deleteGrant grantId])
  else
    (.ok (),
     { r with grants := r.grants.filter (fun g => g.id != grantId) },
     [.deleteGrant grantId])

/-- `SearchUsers` with an exact email filter. -/
def searchUsersApi (r : Remote) (email : String) :
    Except ApiErr (List User) × List ApiCall :=
  (if brokenCall r .searchUsers then .error .remoteError
   else .ok (r.users.filter (fun u => u.email == email)),
   [.searchUsers email])

/-- `Group` (fetch one group by ID). -/
def getGroupApi (r : Remote) (groupId : String) :
    Except ApiErr GroupObj × List ApiCall :=
  (if brokenCall r .getGroup then .error .remoteError
   else
     match r.groups.find? (fun g => g.id == groupId) with
     | none => .error .notFoundErr
     | some g => .ok g,
   [.getGroup groupId])

/-- `AllGroupUsers` (member IDs of a group). -/
def listGroupUsersApi (r : Remote) (groupId : String) :
    Except ApiErr (List String) × List ApiCall :=
  (if brokenCall r .listGroupUsers then .error .remoteError
   else
     match r.groups.find? (fun g => g.id == groupId) with
     | none => .ok []
     | some g => .ok g.memberIds,
   [.listGroupUsers groupId])

/-! ## The grant locator (`findAccessGrant`) -/

/-- The Go loop's match test: `grant.GroupId != nil && *grant.GroupId == groupID`. -/
def grantMatches (g : Grant) (groupId : String) : Bool :=
  match g.groupId with
  | none => false
  | some gid => gid == groupId

/-- The linear scan inside `findAccessGrant` (shared verbatim by
`folderAccessResource` and `folderPermissionOverrideResource`): first grant
in list order whose group ID matches, else absence. -/
def findAccessGrant : List Grant → String → Option Grant
  | [], _ => none
  | g :: rest, groupId =>
    if grantMatches g groupId then some g else findAccessGrant rest groupId

/-- The full `findAccessGrant` helper method: one
`AllContentMetadataAccesses` call for the whole unfiltered grant list,
then the linear scan; a list failure is wrapped and propagated. -/
def findAccessGrantApi (r : Remote) (folderId groupId : String) :
    Except ApiErr (Option Grant) × List ApiCall :=
  match listGrantsApi r folderId with
  | (.error e, l) => (.error e, l)
  | (.ok grants, l) => (.ok (findAccessGrant grants groupId), l)

/-! ## Structured operation outcomes -/

/-- Structured failure kinds, named after the `AddError` titles in the
source.  `cannotOverridePermission` is the spec's
`NoInheritedGrantToOverride` precondition failure. -/
inductive Diag where
  | apiErrorOnFind
  | cannotOverridePermission
  | apiErrorOnUpdate
  | readError
  | apiError
  | userResolutionFailed
  deriving DecidableEq

/-- Outcome of a Read: refreshed state, state removed (drift / vanished), or
a structured failure. -/
inductive ReadOutcome (σ : Type) where
  | ok (s : σ)
  | removed
  | failed (d : Diag)
  deriving DecidableEq

/-- Whether a read outcome is a structured failure. -/
def ReadOutcome.isFailed : ReadOutcome σ → Bool
  | .failed _ => true
  | _ => false

/-! ## The override workflow (`folderPermissionOverrideResource`) -/

/-- Planned (desired) values of the override resource: `id` is computed, so
only folder, group and access level appear in a plan. -/
structure OverridePlan where
  folderId : String
  groupId : String
  accessLevel : String
  deriving DecidableEq

/-- Tracked state of the override resource: the updated grant's ID plus the
planned fields. -/
structure OverrideState where
  id : String
  folderId : String
  groupId : String
  accessLevel : String
  deriving DecidableEq

/-- `folderPermissionOverrideResource.Create`: seek the existing grant; if
the locator errs, fail; if it finds nothing, fail with the structured
precondition error (no remote mutation); otherwise convert the located
grant in place to the desired level and track the updated grant's ID. -/
def overrideCreate (r : Remote) (plan : OverridePlan) :
    Except Diag OverrideState × Remote × List ApiCall :=
  match findAccessGrantApi r plan.folderId plan.groupId with
  | (.error _, l) => (.error .apiErrorOnFind, r, l)
  | (.ok none, l) => (.error .cannotOverridePermission, r, l)
  | (.ok (some g), l) =>
    match updateGrantApi r g.id plan.accessLevel with
    | (.error _, r', l2) => (.error .apiErrorOnUpdate, r', l ++ l2)
    | (.ok updated, r', l2) =>
      (.ok { id := updated.id
             folderId := plan.folderId
             groupId := plan.groupId
             accessLevel := plan.accessLevel }, r', l ++ l2)

/-- `folderPermissionOverrideResource.Read` (the Verify pass): re-locate by
principal; a locator failure is a read error; an absent grant, a grant with
no level, or a level differing from the last-applied override level removes
the tracked state (drift); otherwise the tracked grant ID is refreshed. -/
def overrideRead (r : Remote) (state : OverrideState) :
    ReadOutcome OverrideState × Remote × List ApiCall :=
  match findAccessGrantApi r state.folderId state.groupId with
  | (.error _, l) => (.failed .readError, r, l)
  | (.ok none, l) => (.removed, r, l)
  | (.ok (some g), l) =>
    match g.level with
    | none => (.removed, r, l)
    | some lvl =>
      if lvl == state.accessLevel then (.ok { state with id := g.id }, r, l)
      else (.removed, r, l)

/-- `folderPermissionOverrideResource.Update`: the source delegates to
`Create`, but on a *copied* `CreateResponse` value
(`&resource.CreateResponse{State: resp.State, Diagnostics: resp.Diagnostics}`);
the delegate's diagnostics and state mutations land in that copy and never
reach the caller's response.  Remote effects and calls still happen; the
caller keeps the framework-prepopulated planned state (whose unknown `id`
resolves to the prior state's ID via `UseStateForUnknown`). -/
def overrideUpdate (r : Remote) (plan : OverridePlan) (priorId : String) :
    Except Diag OverrideState × Remote × List ApiCall :=
  match overrideCreate r plan with
  | (_, r', l) =>
    (.ok { id := priorId
           folderId := plan.folderId
           groupId := plan.groupId
           accessLevel := plan.accessLevel }, r', l)

/-- `folderPermissionOverrideResource.Delete`: logs a warning and does
nothing — no remote call of any kind, the remote is left untouched, only
local tracking is forgotten. -/
def overrideDelete (r : Remote) (_state : OverrideState) :
    Remote × List ApiCall :=
  (r, [])

/-! ## Plain grant management (`folderAccessResource`) -/

/-- Planned values of the plain folder-access resource. -/
structure FAPlan where
  folderId : String
  groupId : String
  accessLevel : String
  deriving DecidableEq

/-- Tracked state of the plain folder-access resource (Read stores the
remote grant's level, which may be absent, hence the option). -/
structure FAState where
  id : String
  folderId : String
  groupId : String
  accessLevel : Option String
  deriving DecidableEq

/-- `folderAccessResource.Create`: one unconditional
`CreateContentMetadataAccess` call (no locate-first step). -/
def faCreate (r : Remote) (plan : FAPlan) :
    Except Diag FAState × Remote × List ApiCall :=
  match createGrantApi r plan.folderId plan.groupId plan.accessLevel with
  | (.error _, r', l) => (.error .apiError, r', l)
  | (.ok g, r', l) =>
    (.ok { id := g.id
           folderId := plan.folderId
           groupId := plan.groupId
           accessLevel := some plan.accessLevel }, r', l)

/-- `folderAccessResource.Read`: locate by principal; a locator failure is a
read error; absence removes the tracked state; otherwise the tracked ID and
level are refreshed from the located grant. -/
def faRead (r : Remote) (state : FAState) :
    ReadOutcome FAState × Remote × List ApiCall :=
  match findAccessGrantApi r state.folderId state.groupId with
  | (.error _, l) => (.failed .readError, r, l)
  | (.ok none, l) => (.removed, r, l)
  | (.ok (some g), l) =>
    (.ok { state with id := g.id, accessLevel := g.level }, r, l)

/-- `folderAccessResource.Update`: one `UpdateContentMetadataAccess` call on
the tracked grant ID; on success the planned values are stored (the plan's
unknown `id` resolves to the prior ID via `UseStateForUnknown`). -/
def faUpdate (r : Remote) (plan : FAPlan) (priorId : String) :
    Except Diag FAState × Remote × List ApiCall :=
  match updateGrantApi r priorId plan.accessLevel with
  | (.error _, r', l) => (.error .apiError, r', l)
  | (.ok _, r', l) =>
    (.ok { id := priorId
           folderId := plan.folderId
           groupId := plan.groupId
           accessLevel := some plan.accessLevel }, r', l)

/-- `folderAccessResource.Delete`: one `DeleteContentMetadataAccess` call on
the tracked grant ID. -/
def faDelete (r : Remote) (state : FAState) :
    Except Diag Unit × Remote × List ApiCall :=
  match deleteGrantApi r state.id with
  | (.error _, r', l) => (.error .apiError, r', l)
  | (.ok _, r', l) => (.ok (), r', l)

/-- Modelled from the spec: §4.6 Reconciliation Driver — the per-object
read/converge loop the Terraform framework (outside this repository's
sources) runs around the resource's own `Create`/`Read`/`Update`: with no
tracked state, apply `Create`; with tracked state, refresh via `Read`
(recreating when the state was removed) and then apply `Update` only when
the refreshed level differs from the plan. -/
def reconcile (r : Remote) (tracked : Option FAState) (plan : FAPlan) :
    Option FAState × Remote × List ApiCall :=
  match tracked with
  | none =>
    match faCreate r plan with
    | (.ok st, r', l) => (some st, r', l)
    | (.error _, r', l) => (none, r', l)
  | some st =>
    match faRead r st with
    | (.failed _, r', l) => (some st, r', l)
    | (.removed, r', l) =>
      match faCreate r' plan with
      | (.ok st2, r2, l2) => (some st2, r2, l ++ l2)
      | (.error _, r2, l2) => (none, r2, l ++ l2)
    | (.ok st', r', l) =>
      if st'.accessLevel == some plan.accessLevel then (some st', r', l)
      else
        match faUpdate r' plan st'.id with
        | (.ok st2, r2, l2) => (some st2, r2, l ++ l2)
        | (.error _, r2, l2) => (some st', r2, l ++ l2)

/-! ## Group resource: identity resolution, Read, membership diff -/

/-- A failure of email→ID resolution, carrying the offending email as the
source's error messages do. -/
inductive ResolveErr where
  | apiSearchError (email : String)
  | noUserFound (email : String)
  | multipleUsersFound (email : String)
  deriving DecidableEq

/-- `groupResource.resolveUserEmailsToIDs`: resolves each email in order by
an exact-email `SearchUsers` call; a search failure, zero matches or more
than one match aborts the whole batch at that email with the corresponding
error, so the caller never receives a partial result. -/
def resolveUserEmailsToIDs (r : Remote) : List String → Except ResolveErr (List String)
  | [] => .ok []
  | email :: rest =>
    match (searchUsersApi r email).1 with
    | .error _ => .error (.apiSearchError email)
    | .ok [] => .error (.noUserFound email)
    | .ok (u :: []) =>
      match resolveUserEmailsToIDs r rest with
      | .error e => .error e
      | .ok ids => .ok (u.id :: ids)
    | .ok (_ :: _ :: _) => .error (.multipleUsersFound email)

/-- Tracked state of the group resource: `userIds` holds the element list of
the `user_ids` set, `userEmails` the optional (`null`-able) `user_emails`
set. -/
structure GroupState where
  id : String
  name : String
  userIds : List String
  userEmails : Option (List String)
  deriving DecidableEq

/-- `groupResource.Read`: fetch the group by ID — *any* error there
(not-found or remote failure alike) removes the tracked state; then fetch
the member list — a failure there is a structured API failure; on success
the tracked membership is exactly the remote member-ID list and
`user_emails` is reset to null (write-only attribute). -/
def groupRead (r : Remote) (state : GroupState) :
    ReadOutcome GroupState × List ApiCall :=
  match getGroupApi r state.id with
  | (.error _, l1) => (.removed, l1)
  | (.ok g, l1) =>
    match listGroupUsersApi r state.id with
    | (.error _, l2) => (.failed .apiError, l1 ++ l2)
    | (.ok memberIds, l2) =>
      (.ok { state with name := g.name, userIds := memberIds, userEmails := none },
       l1 ++ l2)

/-- The membership diff of `groupResource.Update` (lines 246–274): the plan
and state ID lists become membership maps (duplicates collapse), an
`AddGroupUser` call is issued for each planned ID not in state and a
`DeleteGroupUser` call for each state ID not in the plan. -/
def groupUpdateDiff (planIds stateIds : List String) : List String × List String :=
  (planIds.dedup.filter (fun id => !(stateIds.contains id)),
   stateIds.dedup.filter (fun id => !(planIds.contains id)))

/-! ## Helper lemmas about the locator -/

/-- A located grant is a member of the scanned list and matches the group. -/
theorem findAccessGrant_some (l : List Grant) (gid : String) (g : Grant)
    (h : findAccessGrant l gid = some g) :
    g ∈ l ∧ grantMatches g gid = true := by
  induction l with
  | nil => simp [findAccessGrant] at h
  | cons a rest ih =>
    by_cases ha : grantMatches a gid = true
    · simp [findAccessGrant, ha] at h
      subst h
      exact ⟨List.mem_cons_self a rest, ha⟩
    · simp [findAccessGrant, ha] at h
      rcases ih h with ⟨hmem, hm⟩
      exact ⟨List.mem_cons_of_mem a hmem, hm⟩

/-- Scanning past a prefix with no match continues into the suffix. -/
theorem findAccessGrant_append_of_none (l₁ l₂ : List Grant) (gid : String)
    (h : findAccessGrant l₁ gid = none) :
    findAccessGrant (l₁ ++ l₂) gid = findAccessGrant l₂ gid := by
  induction l₁ with
  | nil => rfl
  | cons a rest ih =>
    by_cases ha : grantMatches a gid = true
    · simp [findAccessGrant, ha] at h
    · simp [findAccessGrant, ha] at h ⊢
      exact ih h

/-- The locator finds nothing exactly when no grant in the list matches. -/
theorem findAccessGrant_none_iff (l : List Grant) (gid : String) :
    findAccessGrant l gid = none ↔ ∀ g ∈ l, grantMatches g gid = false := by
  induction l with
  | nil => simp [findAccessGrant]
  | cons a rest ih =>
    by_cases ha : grantMatches a gid = true
    · simp [findAccessGrant, ha]
    · simp only [findAccessGrant, if_neg ha, ih]
      constructor
      · intro h g hg
        rcases List.mem_cons.mp hg with rfl | hg'
        · exact Bool.eq_false_iff.mpr ha
        · exact h g hg'
      · intro h g hg
        exact h g (List.mem_cons_of_mem a hg)

/-! ## Claim theorems -/

/-- Claim C1: for every folder ID, group ID and desired level, when the
grant locator finds no existing grant for the group, the override workflow's
Create fails with the structured precondition error (the spec's
`NoInheritedGrantToOverride`, surfaced as `cannotOverridePermission`),
leaves the remote untouched and issues no mutating call; moreover, under no
input whatsoever does the workflow issue a grant-creation call or grow the
context's grant list. -/
theorem override_create_requires_existing_grant :
    ∀ (r : Remote) (plan : OverridePlan),
      (brokenCall r .listGrants = false →
        findAccessGrant r.grants plan.groupId = none →
        (overrideCreate r plan).1 = .error .cannotOverridePermission ∧
        (overrideCreate r plan).2.1 = r ∧
        mutatingCount (overrideCreate r plan).2.2 = 0) ∧
      createGrantCount (overrideCreate r plan).2.2 = 0 ∧
      (overrideCreate r plan).2.1.grants.length = r.grants.length := by
  intro r plan
  constructor
  · intro hb hfind
    simp [overrideCreate, findAccessGrantApi, listGrantsApi, hb, hfind,
          mutatingCount, ApiCall.mutating]
  · cases hb : brokenCall r .listGrants with
    | true =>
      simp [overrideCreate, findAccessGrantApi, listGrantsApi, hb,
            createGrantCount, ApiCall.isCreateGrant]
    | false =>
      cases hfind : findAccessGrant r.grants plan.groupId with
      | none =>
        simp [overrideCreate, findAccessGrantApi, listGrantsApi, hb, hfind,
              createGrantCount, ApiCall.isCreateGrant]
      | some g =>
        cases hu : brokenCall r .updateGrant with
        | true =>
          simp [overrideCreate, findAccessGrantApi, listGrantsApi, hb, hfind,
                updateGrantApi, hu, createGrantCount, ApiCall.isCreateGrant]
        | false =>
          cases hf2 : r.grants.find? (fun h => h.id == g.id) with
          | none =>
            simp [overrideCreate, findAccessGrantApi, listGrantsApi, hb, hfind,
                  updateGrantApi, hu, hf2, createGrantCount, ApiCall.isCreateGrant]
          | some h =>
            simp [overrideCreate, findAccessGrantApi, listGrantsApi, hb, hfind,
                  updateGrantApi, hu, hf2, createGrantCount, ApiCall.isCreateGrant]

/-- Witness for C1 at a concrete empty context. -/
theorem override_create_requires_existing_grant_witness :
    (overrideCreate
        { grants := [], nextGrantId := 0, users := [], groups := [], broken := [] }
        { folderId := "f1", groupId := "G1", accessLevel := "edit" }).1 =
      .error .cannotOverridePermission ∧
    (overrideCreate
        { grants := [], nextGrantId := 0, users := [], groups := [], broken := [] }
        { folderId := "f1", groupId := "G1", accessLevel := "edit" }).2.1 =
      { grants := [], nextGrantId := 0, users := [], groups := [], broken := [] } ∧
    mutatingCount
      (overrideCreate
        { grants := [], nextGrantId := 0, users := [], groups := [], broken := [] }
        { folderId := "f1", groupId := "G1", accessLevel := "edit" }).2.2 = 0 :=
  (override_create_requires_existing_grant
      { grants := [], nextGrantId := 0, users := [], groups := [], broken := [] }
      { folderId := "f1", groupId := "G1", accessLevel := "edit" }).1
    (by decide) (by decide)

/-- Claim C3: destroying a tracked override object issues zero remote calls
of any kind — no delete, no update, nothing: the remote state is returned
exactly as it was and the call log is empty, for every tracked state. -/
theorem override_delete_issues_no_remote_calls :
    ∀ (r : Remote) (st : OverrideState),
      (overrideDelete r st).1 = r ∧
      (overrideDelete r st).2 = [] ∧
      mutatingCount (overrideDelete r st).2 = 0 := by
  intro r st
  exact ⟨rfl, rfl, rfl⟩

/-- Claim C9: the grant locator issues one call for the full unfiltered
grant list and scans linearly: it returns absence exactly when no grant's
group matches, and otherwise the first matching grant in list order — in
particular, with two grants for the same principal (an invariant violation)
it returns the first encountered rather than erring. -/
theorem locator_returns_first_match :
    ∀ (grants : List Grant) (gid : String),
      (findAccessGrant grants gid = none ↔ ∀ g ∈ grants, grantMatches g gid = false) ∧
      (∀ g, findAccessGrant grants gid = some g →
        grantMatches g gid = true ∧
        ∃ l₁ l₂, grants = l₁ ++ g :: l₂ ∧ ∀ h ∈ l₁, grantMatches h gid = false) ∧
      (∀ (l₁ : List Grant) (g : Grant) (l₂ : List Grant),
        grantMatches g gid = true →
        (∀ h ∈ l₁, grantMatches h gid = false) →
        findAccessGrant (l₁ ++ g :: l₂) gid = some g) ∧
      (∀ (r : Remote) (folderId : String),
        brokenCall r .listGrants = false →
        (findAccessGrantApi r folderId gid).1 = .ok (findAccessGrant r.grants gid) ∧
        (findAccessGrantApi r folderId gid).2 = [.listGrants folderId]) := by
  intro grants gid
  refine ⟨findAccessGrant_none_iff grants gid, ?_, ?_, ?_⟩
  · intro g hg
    induction grants with
    | nil => simp [findAccessGrant] at hg
    | cons a rest ih =>
      by_cases ha : grantMatches a gid = true
      · simp [findAccessGrant, ha] at hg
        subst hg
        exact ⟨ha, [], rest, rfl, by simp⟩
      · simp [findAccessGrant, ha] at hg
        rcases ih hg with ⟨hm, l₁, l₂, hdec, hnone⟩
        refine ⟨hm, a :: l₁, l₂, by simp [hdec], ?_⟩
        intro h hh
        rcases List.mem_cons.mp hh with rfl | hh'
        · exact Bool.eq_false_iff.mpr ha
        · exact hnone h hh'
  · intro l₁ g l₂ hg hnone
    have h1 : findAccessGrant l₁ gid = none :=
      (findAccessGrant_none_iff l₁ gid).mpr hnone
    rw [findAccessGrant_append_of_none l₁ (g :: l₂) gid h1]
    simp [findAccessGrant, hg]
  · intro r folderId hb
    constructor
    · simp [findAccessGrantApi, listGrantsApi, hb]
    · simp [findAccessGrantApi, listGrantsApi, hb]

/-- Witness for C9: with two grants for the same group, the locator returns
the first in list order. -/
theorem locator_returns_first_match_witness :
    findAccessGrant
      [{ id := "a", groupId := some "G1", level := some "view" },
       { id := "b", groupId := some "G1", level := some "edit" }] "G1" =
      some { id := "a", groupId := some "G1", level := some "view" } :=
  (locator_returns_first_match
      [{ id := "a", groupId := some "G1", level := some "view" },
       { id := "b", groupId := some "G1", level := some "edit" }] "G1").2.2.1
    [] { id := "a", groupId := some "G1", level := some "view" }
    [{ id := "b", groupId := some "G1", level := some "edit" }]
    (by decide) (by decide)

/-- Claim C6: on a Verify pass (with a healthy list call) the override Read
never mutates the remote; the tracked state is removed exactly when the
grant is absent or its level no longer equals the last-applied override
level, and otherwise the tracked grant ID is refreshed and the read
succeeds. -/
theorem override_read_drift_detection :
    ∀ (r : Remote) (st : OverrideState),
      brokenCall r .listGrants = false →
      (overrideRead r st).2.1 = r ∧
      mutatingCount (overrideRead r st).2.2 = 0 ∧
      (findAccessGrant r.grants st.groupId = none → (overrideRead r st).1 = .removed) ∧
      (∀ g, findAccessGrant r.grants st.groupId = some g →
        (g.level ≠ some st.accessLevel → (overrideRead r st).1 = .removed) ∧
        (g.level = some st.accessLevel →
          (overrideRead r st).1 = .ok { st with id := g.id })) := by
  intro r st hb
  cases hfind : findAccessGrant r.grants st.groupId with
  | none =>
    simp [overrideRead, findAccessGrantApi, listGrantsApi, hb, hfind,
          mutatingCount, ApiCall.mutating]
  | some g =>
    cases hl : g.level with
    | none =>
      simp [overrideRead, findAccessGrantApi, listGrantsApi, hb, hfind, hl,
            mutatingCount, ApiCall.mutating]
    | some lvl =>
      by_cases heq : lvl = st.accessLevel
      · subst heq
        simp [overrideRead, findAccessGrantApi, listGrantsApi, hb, hfind, hl,
              mutatingCount, ApiCall.mutating]
      · have hbeq : (lvl == st.accessLevel) = false := beq_eq_false_iff_ne.mpr heq
        simp [overrideRead, findAccessGrantApi, listGrantsApi, hb, hfind, hl,
              hbeq, mutatingCount, ApiCall.mutating]
        intro hlvl
        exact absurd hlvl heq

/-- Witness for C6 at a concrete drifted and a concrete matching state. -/
theorem override_read_drift_detection_witness :
    (overrideRead
        { grants := [{ id := "g0", groupId := some "G1", level := some "view" }],
          nextGrantId := 1, users := [], groups := [], broken := [] }
        { id := "old", folderId := "f1", groupId := "G1", accessLevel := "view" }).1 =
      .ok { id := "g0", folderId := "f1", groupId := "G1", accessLevel := "view" } :=
  (((override_read_drift_detection
      { grants := [{ id := "g0", groupId := some "G1", level := some "view" }],
        nextGrantId := 1, users := [], groups := [], broken := [] }
      { id := "old", folderId := "f1", groupId := "G1", accessLevel := "view" }
      (by decide)).2.2.2
    { id := "g0", groupId := some "G1", level := some "view" }
    (by decide)).2 (by decide))

/-- Claim C5: with a healthy remote, a grant for the group located in the
context at level `"view"` and desired override level `"edit"`, the override
Create issues exactly one mutating remote call — an update on the located
grant — the tracked Grant ID equals the located grant's ID (unchanged), and
every grant carrying that ID ends at level `"edit"`. -/
theorem override_convert_single_update :
    ∀ (r : Remote) (plan : OverridePlan) (g : Grant),
      r.broken = [] →
      findAccessGrant r.grants plan.groupId = some g →
      g.level = some "view" →
      plan.accessLevel = "edit" →
      (overrideCreate r plan).1 =
        .ok { id := g.id, folderId := plan.folderId, groupId := plan.groupId,
              accessLevel := "edit" } ∧
      (overrideCreate r plan).2.2 =
        [.listGrants plan.folderId, .updateGrant g.id "edit"] ∧
      mutatingCount (overrideCreate r plan).2.2 = 1 ∧
      (∀ h ∈ (overrideCreate r plan).2.1.grants, h.id = g.id → h.level = some "edit") := by
  intro r plan g hbroken hfind hview hlevel
  have hbl : brokenCall r .listGrants = false := by
    simp [brokenCall, hbroken]
  have hbu : brokenCall r .updateGrant = false := by
    simp [brokenCall, hbroken]
  have hmem : g ∈ r.grants := (findAccessGrant_some r.grants plan.groupId g hfind).1
  cases hf : r.grants.find? (fun h => h.id == g.id) with
  | none =>
    exfalso
    have := List.find?_eq_none.mp hf g hmem
    simp at this
  | some gf =>
    have hgf : (gf.id == g.id) = true := by
      have hp := List.find?_some hf
      simpa using hp
    have hgfid : gf.id = g.id := beq_iff_eq.mp hgf
    refine ⟨?_, ?_, ?_, ?_⟩
    · simp [overrideCreate, findAccessGrantApi, listGrantsApi, hbl, hfind,
            updateGrantApi, hbu, hf, hlevel, hgfid]
    · simp [overrideCreate, findAccessGrantApi, listGrantsApi, hbl, hfind,
            updateGrantApi, hbu, hf, hlevel, hgfid]
    · simp [overrideCreate, findAccessGrantApi, listGrantsApi, hbl, hfind,
            updateGrantApi, hbu, hf, hlevel, mutatingCount, ApiCall.mutating]
    · intro h hmem' hid
      have hred : (overrideCreate r plan).2.1.grants =
          r.grants.map
            (fun x => if x.id == g.id then { x with level := some plan.accessLevel } else x) := by
        simp [overrideCreate, findAccessGrantApi, listGrantsApi, hbl, hfind,
              updateGrantApi, hbu, hf]
      rw [hred] at hmem'
      rcases List.mem_map.mp hmem' with ⟨a, hamem, haeq⟩
      by_cases hcase : (a.id == g.id) = true
      · rw [if_pos hcase] at haeq
        rw [← haeq, hlevel]
      · rw [if_neg (by simp [hcase])] at haeq
        exfalso
        apply hcase
        rw [haeq, hid]
        simp

/-- Witness for C5 at a concrete context with one inherited view grant. -/
theorem override_convert_single_update_witness :
    (overrideCreate
        { grants := [{ id := "g0", groupId := some "G1", level := some "view" }],
          nextGrantId := 1, users := [], groups := [], broken := [] }
        { folderId := "f1", groupId := "G1", accessLevel := "edit" }).1 =
      .ok { id := "g0", folderId := "f1", groupId := "G1", accessLevel := "edit" } ∧
    (overrideCreate
        { grants := [{ id := "g0", groupId := some "G1", level := some "view" }],
          nextGrantId := 1, users := [], groups := [], broken := [] }
        { folderId := "f1", groupId := "G1", accessLevel := "edit" }).2.2 =
      [.listGrants "f1", .updateGrant "g0" "edit"] :=
  have h := override_convert_single_update
    { grants := [{ id := "g0", groupId := some "G1", level := some "view" }],
      nextGrantId := 1, users := [], groups := [], broken := [] }
    { folderId := "f1", groupId := "G1", accessLevel := "edit" }
    { id := "g0", groupId := some "G1", level := some "view" }
    (by decide) (by decide) (by decide) (by decide)
  ⟨h.1, h.2.1⟩

/-- Claim C8: the membership diff of group convergence is pure set algebra —
as sets of principal IDs, the adds are exactly `desired − observed` and the
removes exactly `observed − desired`, diffing a list against itself yields
no add and no remove operations, and applying the adds and removes to the
observed set yields exactly the desired set. -/
theorem group_membership_diff_set_algebra :
    ∀ (desired observed : List String),
      (groupUpdateDiff desired observed).1.toFinset =
        desired.toFinset \ observed.toFinset ∧
      (groupUpdateDiff desired observed).2.toFinset =
        observed.toFinset \ desired.toFinset ∧
      groupUpdateDiff desired desired = ([], []) ∧
      (observed.toFinset ∪ (groupUpdateDiff desired observed).1.toFinset) \
          (groupUpdateDiff desired observed).2.toFinset = desired.toFinset := by
  intro desired observed
  have hAdd : (groupUpdateDiff desired observed).1.toFinset =
      desired.toFinset \ observed.toFinset := by
    ext x
    simp [groupUpdateDiff, List.mem_dedup, List.mem_filter]
  have hRem : (groupUpdateDiff desired observed).2.toFinset =
      observed.toFinset \ desired.toFinset := by
    ext x
    simp [groupUpdateDiff, List.mem_dedup, List.mem_filter]
  refine ⟨hAdd, hRem, ?_, ?_⟩
  · have h1 : (groupUpdateDiff desired desired).1 = [] := by
      apply List.filter_eq_nil.mpr
      intro a ha
      simp [List.mem_dedup] at ha
      simp [List.elem_eq_mem, ha]
    have h2 : (groupUpdateDiff desired desired).2 = [] := by
      apply List.filter_eq_nil.mpr
      intro a ha
      simp [List.mem_dedup] at ha
      simp [List.elem_eq_mem, ha]
    cases hd : groupUpdateDiff desired desired with
    | mk fst snd =>
      simp [hd] at h1 h2
      simp [h1, h2]
  · rw [hAdd, hRem]
    ext x
    simp only [Finset.mem_sdiff, Finset.mem_union]
    by_cases hx₁ : x ∈ desired.toFinset <;> by_cases hx₂ : x ∈ observed.toFinset <;>
      simp [hx₁, hx₂]

/-- Claim C7: identity resolution fails with a not-found error on zero
matches and with an ambiguity error on more than one match, never silently
picking one; and the batched form returns an ID for every email on success
(one per email, in order) while failing at the first email that errors,
regardless of what follows it, so the caller never receives a partial
result set. -/
theorem resolve_emails_no_partial_success :
    ∀ (r : Remote),
      (brokenCall r .searchUsers = false →
        (∀ email, r.users.filter (fun u => u.email == email) = [] →
          resolveUserEmailsToIDs r [email] = .error (.noUserFound email)) ∧
        (∀ email u₁ u₂ rest,
          r.users.filter (fun u => u.email == email) = u₁ :: u₂ :: rest →
          resolveUserEmailsToIDs r [email] = .error (.multipleUsersFound email))) ∧
      (∀ emails ids, resolveUserEmailsToIDs r emails = .ok ids →
        ids.length = emails.length) ∧
      (∀ pre email post err ids₀,
        resolveUserEmailsToIDs r pre = .ok ids₀ →
        resolveUserEmailsToIDs r [email] = .error err →
        resolveUserEmailsToIDs r (pre ++ email :: post) = .error err) := by
  intro r
  refine ⟨?_, ?_, ?_⟩
  · intro hb
    constructor
    · intro email hfilter
      simp [resolveUserEmailsToIDs, searchUsersApi, hb, hfilter]
    · intro email u₁ u₂ rest hfilter
      simp [resolveUserEmailsToIDs, searchUsersApi, hb, hfilter]
  · intro emails
    induction emails with
    | nil =>
      intro ids h
      simp [resolveUserEmailsToIDs] at h
      simp [← h]
    | cons e rest ih =>
      intro ids h
      cases hs : (searchUsersApi r e).1 with
      | error a => simp [resolveUserEmailsToIDs, hs] at h
      | ok lst =>
        match lst, hs with
        | [], hs => simp [resolveUserEmailsToIDs, hs] at h
        | [u], hs =>
          simp only [resolveUserEmailsToIDs, hs] at h
          cases hr : resolveUserEmailsToIDs r rest with
          | error e2 => simp [hr] at h
          | ok ids' =>
            simp [hr] at h
            rw [← h]
            simp [ih ids' hr]
        | u₁ :: u₂ :: tl, hs => simp [resolveUserEmailsToIDs, hs] at h
  · intro pre email post err
    induction pre with
    | nil =>
      intro ids₀ _ hsingle
      cases hs : (searchUsersApi r email).1 with
      | error a =>
        simp [resolveUserEmailsToIDs, hs] at hsingle ⊢
        exact hsingle
      | ok lst =>
        match lst, hs with
        | [], hs =>
          simp [resolveUserEmailsToIDs, hs] at hsingle ⊢
          exact hsingle
        | [u], hs =>
          simp [resolveUserEmailsToIDs, hs] at hsingle
        | u₁ :: u₂ :: tl, hs =>
          simp [resolveUserEmailsToIDs, hs] at hsingle ⊢
          exact hsingle
    | cons p pre' ih =>
      intro ids₀ hpre hsingle
      cases hs : (searchUsersApi r p).1 with
      | error a => simp [resolveUserEmailsToIDs, hs] at hpre
      | ok lst =>
        match lst, hs with
        | [], hs => simp [resolveUserEmailsToIDs, hs] at hpre
        | [u], hs =>
          simp only [resolveUserEmailsToIDs, hs] at hpre
          cases hr : resolveUserEmailsToIDs r pre' with
          | error e2 => simp [hr] at hpre
          | ok tl' =>
            have hrec := ih tl' hr hsingle
            simp only [List.cons_append, resolveUserEmailsToIDs, hs, List.append_eq, hrec]
        | u₁ :: u₂ :: tl, hs => simp [resolveUserEmailsToIDs, hs] at hpre

/-- Witness for C7: an email matching two users fails with the ambiguity
error. -/
theorem resolve_emails_no_partial_success_witness :
    resolveUserEmailsToIDs
      { grants := [], nextGrantId := 0,
        users := [{ id := "u1", email := "a@x.com" }, { id := "u2", email := "a@x.com" }],
        groups := [], broken := [] } ["a@x.com"] =
      .error (.multipleUsersFound "a@x.com") :=
  ((resolve_emails_no_partial_success
      { grants := [], nextGrantId := 0,
        users := [{ id := "u1", email := "a@x.com" }, { id := "u2", email := "a@x.com" }],
        groups := [], broken := [] }).1 (by decide)).2
    "a@x.com" { id := "u1", email := "a@x.com" } { id := "u2", email := "a@x.com" } []
    (by decide)

/-- Claim C10: every successful group Read stores exactly the remote
member-ID list in `user_ids` and always resets `user_emails` to null —
email-specified membership is write-only and never appears in observed
tracked state. -/
theorem group_read_membership_from_remote :
    ∀ (r : Remote) (st : GroupState) (g : GroupObj),
      brokenCall r .getGroup = false →
      brokenCall r .listGroupUsers = false →
      r.groups.find? (fun h => h.id == st.id) = some g →
      (groupRead r st).1 =
        .ok { st with name := g.name, userIds := g.memberIds, userEmails := none } := by
  intro r st g hb1 hb2 hfind
  simp [groupRead, getGroupApi, listGroupUsersApi, hb1, hb2, hfind]

/-- Witness for C10 at a concrete group with two remote members. -/
theorem group_read_membership_from_remote_witness :
    (groupRead
        { grants := [], nextGrantId := 0, users := [],
          groups := [{ id := "grp", name := "eng", memberIds := ["u1", "u2"] }],
          broken := [] }
        { id := "grp", name := "old", userIds := ["u9"],
          userEmails := some ["a@x.com"] }).1 =
      .ok { id := "grp", name := "eng", userIds := ["u1", "u2"], userEmails := none } :=
  group_read_membership_from_remote
    { grants := [], nextGrantId := 0, users := [],
      groups := [{ id := "grp", name := "eng", memberIds := ["u1", "u2"] }],
      broken := [] }
    { id := "grp", name := "old", userIds := ["u9"], userEmails := some ["a@x.com"] }
    { id := "grp", name := "eng", memberIds := ["u1", "u2"] }
    (by decide) (by decide) (by decide)

/-- Counterexample to claim C2 as stated: reconciliation of the plain grant
object is *not* idempotent for every context.  First conjunct: in a context
already holding a grant `g0` for group `G1` at level `"view"`, reconciling
with desired level `"edit"` (no tracked state) and then a second time
performs **two** mutating remote calls (a create, then an update of `g0`
found first in list order).  Second conjunct: in a context already holding a
grant for `G1` at the desired level `"edit"`, the create path still issues a
grant-creation call and returns a fresh grant ID rather than the existing
grant `g9`. -/
theorem reconcile_not_idempotent_counterexample :
    (mutatingCount
        ((reconcile
            { grants := [{ id := "g0", groupId := some "G1", level := some "view" }],
              nextGrantId := 1, users := [], groups := [], broken := [] }
            none { folderId := "f1", groupId := "G1", accessLevel := "edit" }).2.2) +
      mutatingCount
        ((reconcile
            (reconcile
              { grants := [{ id := "g0", groupId := some "G1", level := some "view" }],
                nextGrantId := 1, users := [], groups := [], broken := [] }
              none { folderId := "f1", groupId := "G1", accessLevel := "edit" }).2.1
            (reconcile
              { grants := [{ id := "g0", groupId := some "G1", level := some "view" }],
                nextGrantId := 1, users := [], groups := [], broken := [] }
              none { folderId := "f1", groupId := "G1", accessLevel := "edit" }).1
            { folderId := "f1", groupId := "G1", accessLevel := "edit" }).2.2) = 2) ∧
    createGrantCount
      ((reconcile
          { grants := [{ id := "g9", groupId := some "G1", level := some "edit" }],
            nextGrantId := 1, users := [], groups := [], broken := [] }
          none { folderId := "f1", groupId := "G1", accessLevel := "edit" }).2.2) = 1 ∧
    (reconcile
        { grants := [{ id := "g9", groupId := some "G1", level := some "edit" }],
          nextGrantId := 1, users := [], groups := [], broken := [] }
        none { folderId := "f1", groupId := "G1", accessLevel := "edit" }).1 =
      some { id := "grant-1", folderId := "f1", groupId := "G1",
             accessLevel := some "edit" } := by
  refine ⟨by decide, by decide, by decide⟩

/-- Claim C2 (amended): starting from a healthy context with **no** existing
grant for the principal, reconciliation is idempotent: the first pass
performs exactly one mutating call (the unconditional create), the second
pass with the same desired level performs none, returns the same tracked
state, and the tracked grant is the freshly created one at the desired
level.  (The create path never locates first, so without this precondition
a pre-existing grant for the principal defeats idempotence.) -/
theorem reconcile_idempotent_amended :
    ∀ (r : Remote) (plan : FAPlan),
      r.broken = [] →
      findAccessGrant r.grants plan.groupId = none →
      mutatingCount (reconcile r none plan).2.2 = 1 ∧
      mutatingCount
        ((reconcile (reconcile r none plan).2.1 (reconcile r none plan).1 plan).2.2) = 0 ∧
      (reconcile (reconcile r none plan).2.1 (reconcile r none plan).1 plan).1 =
        (reconcile r none plan).1 ∧
      (reconcile r none plan).1 =
        some { id := (mintGrant r plan.groupId plan.accessLevel).id
               folderId := plan.folderId
               groupId := plan.groupId
               accessLevel := some plan.accessLevel } := by
  intro r plan hbroken hfind
  have hbc : brokenCall r .createGrant = false := by simp [brokenCall, hbroken]
  have h1 : reconcile r none plan =
      (some { id := (mintGrant r plan.groupId plan.accessLevel).id
              folderId := plan.folderId
              groupId := plan.groupId
              accessLevel := some plan.accessLevel },
       { r with grants := r.grants ++ [mintGrant r plan.groupId plan.accessLevel]
                nextGrantId := r.nextGrantId + 1 },
       [.createGrant plan.folderId plan.groupId plan.accessLevel]) := by
    simp [reconcile, faCreate, createGrantApi, hbc]
  have hbl : brokenCall
      { r with grants := r.grants ++ [mintGrant r plan.groupId plan.accessLevel]
               nextGrantId := r.nextGrantId + 1 } .listGrants = false := by
    simp [brokenCall, hbroken]
  have hfind2 : findAccessGrant
      (r.grants ++ [mintGrant r plan.groupId plan.accessLevel]) plan.groupId =
      some (mintGrant r plan.groupId plan.accessLevel) := by
    rw [findAccessGrant_append_of_none r.grants _ plan.groupId hfind]
    simp [findAccessGrant, grantMatches, mintGrant]
  simp only [mintGrant] at hbl hfind2
  have h2 : reconcile
      { r with grants := r.grants ++ [mintGrant r plan.groupId plan.accessLevel]
               nextGrantId := r.nextGrantId + 1 }
      (some { id := (mintGrant r plan.groupId plan.accessLevel).id
              folderId := plan.folderId
              groupId := plan.groupId
              accessLevel := some plan.accessLevel }) plan =
      (some { id := (mintGrant r plan.groupId plan.accessLevel).id
              folderId := plan.folderId
              groupId := plan.groupId
              accessLevel := some plan.accessLevel },
       { r with grants := r.grants ++ [mintGrant r plan.groupId plan.accessLevel]
                nextGrantId := r.nextGrantId + 1 },
       [.listGrants plan.folderId]) := by
    simp [reconcile, faRead, findAccessGrantApi, listGrantsApi, hbl, hfind2, mintGrant]
  rw [h1]
  simp [h2, mutatingCount, ApiCall.mutating]

/-- Witness for the amended C2 at a concrete empty context. -/
theorem reconcile_idempotent_amended_witness :
    mutatingCount
      ((reconcile
          { grants := [], nextGrantId := 0, users := [], groups := [], broken := [] }
          none { folderId := "f1", groupId := "G1", accessLevel := "edit" }).2.2) = 1 ∧
    mutatingCount
      ((reconcile
          (reconcile
            { grants := [], nextGrantId := 0, users := [], groups := [], broken := [] }
            none { folderId := "f1", groupId := "G1", accessLevel := "edit" }).2.1
          (reconcile
            { grants := [], nextGrantId := 0, users := [], groups := [], broken := [] }
            none { folderId := "f1", groupId := "G1", accessLevel := "edit" }).1
          { folderId := "f1", groupId := "G1", accessLevel := "edit" }).2.2) = 0 :=
  have h := reconcile_idempotent_amended
    { grants := [], nextGrantId := 0, users := [], groups := [], broken := [] }
    { folderId := "f1", groupId := "G1", accessLevel := "edit" }
    (by decide) (by decide)
  ⟨h.1, h.2.1⟩

/-- Counterexample to claim C4 as stated: a remote (transport-level) error
on the group Read's root-level fetch — the group `"grp"` still exists
remotely, only the `Group` call fails — is *not* reported as a failure: the
tracked state is removed as if the object had vanished. -/
theorem group_read_swallows_remote_error_counterexample :
    (groupRead
        { grants := [], nextGrantId := 0, users := [],
          groups := [{ id := "grp", name := "eng", memberIds := ["u1"] }],
          broken := [.getGroup] }
        { id := "grp", name := "eng", userIds := ["u1"], userEmails := none }).1 =
      .removed ∧
    ((groupRead
        { grants := [], nextGrantId := 0, users := [],
          groups := [{ id := "grp", name := "eng", memberIds := ["u1"] }],
          broken := [.getGroup] }
        { id := "grp", name := "eng", userIds := ["u1"], userEmails := none }).1).isFailed =
      false := by
  exact ⟨by decide, by decide⟩

/-- Claim C4 (amended): remote-call errors surface as terminal structured
failures of the current operation for the modeled operations — override
Create/Read, folder-access Create/Read/Update/Delete, and the group Read's
membership fetch — with two exceptions forced by the code: (i) *any* error
of the group Read's root-level group fetch (remote errors included) is
treated as Vanished, removing the tracked state; (ii) the override Update
delegates to Create on a copied response value, so its delegate's failures
are dropped and Update always reports success. -/
theorem error_propagation_amended :
    ∀ (r : Remote) (plan : OverridePlan) (ost : OverrideState)
      (fplan : FAPlan) (fst : FAState) (gst : GroupState),
      (brokenCall r .listGrants = true →
        (overrideCreate r plan).1 = .error .apiErrorOnFind ∧
        (overrideRead r ost).1 = .failed .readError ∧
        (faRead r fst).1 = .failed .readError) ∧
      (brokenCall r .createGrant = true →
        (faCreate r fplan).1 = .error .apiError) ∧
      (brokenCall r .updateGrant = true →
        ∀ priorId, (faUpdate r fplan priorId).1 = .error .apiError) ∧
      (brokenCall r .deleteGrant = true →
        (faDelete r fst).1 = .error .apiError) ∧
      (brokenCall r .getGroup = false → brokenCall r .listGroupUsers = true →
        (∃ g, r.groups.find? (fun h => h.id == gst.id) = some g) →
        (groupRead r gst).1 = .failed .apiError) ∧
      (brokenCall r .getGroup = true →
        (groupRead r gst).1 = .removed) ∧
      (∀ priorId, ∃ st, (overrideUpdate r plan priorId).1 = .ok st) := by
  intro r plan ost fplan fst gst
  refine ⟨?_, ?_, ?_, ?_, ?_, ?_, ?_⟩
  · intro hb
    refine ⟨?_, ?_, ?_⟩
    · simp [overrideCreate, findAccessGrantApi, listGrantsApi, hb]
    · simp [overrideRead, findAccessGrantApi, listGrantsApi, hb]
    · simp [faRead, findAccessGrantApi, listGrantsApi, hb]
  · intro hb
    simp [faCreate, createGrantApi, hb]
  · intro hb priorId
    simp [faUpdate, updateGrantApi, hb]
  · intro hb
    simp [faDelete, deleteGrantApi, hb]
  · intro hb1 hb2 hg
    rcases hg with ⟨g, hg⟩
    simp [groupRead, getGroupApi, listGroupUsersApi, hb1, hb2, hg]
  · intro hb
    simp [groupRead, getGroupApi, hb]
  · intro priorId
    refine ⟨{ id := priorId, folderId := plan.folderId, groupId := plan.groupId,
              accessLevel := plan.accessLevel }, ?_⟩
    rcases hoc : overrideCreate r plan with ⟨out, r', l⟩
    simp [overrideUpdate, hoc]

/-- Witness for the amended C4: with the grant-list call broken, the
override Create fails with the find error. -/
theorem error_propagation_amended_witness :
    (overrideCreate
        { grants := [], nextGrantId := 0, users := [], groups := [],
          broken := [.listGrants] }
        { folderId := "f1", groupId := "G1", accessLevel := "edit" }).1 =
      .error .apiErrorOnFind :=
  ((error_propagation_amended
      { grants := [], nextGrantId := 0, users := [], groups := [],
        broken := [.listGrants] }
      { folderId := "f1", groupId := "G1", accessLevel := "edit" }
      { id := "x", folderId := "f1", groupId := "G1", accessLevel := "view" }
      { folderId := "f1", groupId := "G1", accessLevel := "edit" }
      { id := "x", folderId := "f1", groupId := "G1", accessLevel := some "view" }
      { id := "grp", name := "eng", userIds := [], userEmails := none }).1
    (by decide)).1
